import Mathlib

/-!
Verification of the process supervisor in `src/src-tauri/src/main.rs`.

The program is a Tauri tray application whose core is a supervisor for a
single external STT daemon process: a `Mutex<Option<std::process::Child>>`
inside `AppState`, accessed by the three commands `start_stt_daemon`,
`stop_stt_daemon` and `get_stt_status`, plus a quit handler in `main`.

Embedding choices:
* A child-process handle is opaque to the supervisor; we model it as a `Nat`
  (standing for the OS process id).
* The mutex serialises every command (each command holds the lock for its
  whole body), so each command is embedded as a pure function from the
  guarded state to a result together with the next state.
* OS effects (`Command::spawn`, `Child::kill`) are nondeterministic from the
  program's point of view; their outcome is passed to each command as an
  explicit `Except String _` parameter (`Ok`/`Err` of the Rust call).
-/

/-- An opaque OS child-process handle (`std::process::Child`); the supervisor
never inspects it, only stores and kills it. -/
abbrev Child := Nat

/-- `struct AppState { stt_process: Mutex<Option<Child>> }`; the mutex is
modelled by the serialised state-passing style, leaving the guarded
`Option<Child>` slot. -/
structure AppState where
  stt_process : Option Child
  deriving Repr, DecidableEq

/-- The state installed by `.manage(AppState { stt_process: Mutex::new(None) })`. -/
def initState : AppState := ⟨none⟩

/-- `start_stt_daemon`: if the guarded slot is occupied, return
`Err("STT daemon is already running")`; otherwise run the spawn (whose OS
outcome is the `spawn` parameter), on `Ok(child)` store the handle and return
the success message, on `Err(e)` return `Err("Failed to start STT daemon: e")`
leaving the slot empty. -/
def start_stt_daemon (spawn : Except String Child) (s : AppState) :
    Except String String × AppState :=
  match s.stt_process with
  | some _ => (.error "STT daemon is already running", s)
  | none =>
    match spawn with
    | .ok child => (.ok "STT daemon started successfully", ⟨some child⟩)
    | .error e => (.error ("Failed to start STT daemon: " ++ e), s)

/-- `stop_stt_daemon`: `process_guard.take()` empties the slot; if a child was
present, kill it (OS outcome given by the `kill` parameter) and return the
success message on `Ok` or `Err("Failed to stop STT daemon: e")` on `Err(e)` —
the slot stays empty either way, since `take()` already cleared it; if the
slot was empty, return `Err("STT daemon is not running")`. -/
def stop_stt_daemon (kill : Except String Unit) (s : AppState) :
    Except String String × AppState :=
  match s.stt_process with
  | some _ =>
    match kill with
    | .ok _ => (.ok "STT daemon stopped successfully", ⟨none⟩)
    | .error e => (.error ("Failed to stop STT daemon: " ++ e), ⟨none⟩)
  | none => (.error "STT daemon is not running", s)

/-- `get_stt_daemon` status command: `Ok(process_guard.is_some())`, leaving the
state untouched. -/
def get_stt_status (s : AppState) : Except String Bool × AppState :=
  (.ok s.stt_process.isSome, s)

/-- The `"quit"` branch of the tray-event handler in `main`: take the handle
if present, issue `child.kill()` discarding its result (`let _ = ...`), then
`std::process::exit(0)`. Returns the final guarded state and the exit code. -/
def quit_handler (kill : Except String Unit) (s : AppState) : AppState × Nat :=
  match s.stt_process with
  | some _ =>
    let _ := kill
    (⟨none⟩, 0)
  | none => (s, 0)

/-- One supervisor call together with the OS outcome of the system call it
performs, used to range over arbitrary call sequences. -/
inductive Op where
  | start (spawn : Except String Child)
  | stop (kill : Except String Unit)
  | status
  deriving Repr

/-- The state transition performed by one call. -/
def stepState (s : AppState) (op : Op) : AppState :=
  match op with
  | .start spawn => (start_stt_daemon spawn s).2
  | .stop kill => (stop_stt_daemon kill s).2
  | .status => (get_stt_status s).2

/-- Run a sequence of calls from the initial (handle-absent) state. -/
def run (ops : List Op) : AppState := ops.foldl stepState initState

/-- The number of process handles held by the supervisor state. -/
def handleCount (s : AppState) : Nat :=
  match s.stt_process with
  | some _ => 1
  | none => 0

/-- The two lock-acquisition orders available to a pair of simultaneous
`start_stt_daemon` callers; the mutex serialises the pair into one of them. -/
inductive Interleaving where
  | firstThenSecond
  | secondThenFirst
  deriving Repr, DecidableEq

/-- Two concurrent `start_stt_daemon` invocations: the mutex forces one of the
two serial orders; each caller's spawn outcome is its own parameter. Returns
(first caller's result, second caller's result, final state). -/
def concurrentStarts (ord : Interleaving) (spawn1 spawn2 : Except String Child)
    (s : AppState) : Except String String × Except String String × AppState :=
  match ord with
  | .firstThenSecond =>
    let r1 := start_stt_daemon spawn1 s
    let r2 := start_stt_daemon spawn2 r1.2
    (r1.1, r2.1, r2.2)
  | .secondThenFirst =>
    let r2 := start_stt_daemon spawn2 s
    let r1 := start_stt_daemon spawn1 r2.2
    (r1.1, r2.1, r1.2)

/-- C1: every call sequence from the initial state leaves at most one handle
in the supervisor state, and a start call made while a handle is present is
rejected with the already-running error without changing the state. -/
theorem C1_at_most_one_handle (ops : List Op) (spawn : Except String Child)
    (s : AppState) (h : s.stt_process.isSome) :
    handleCount (run ops) ≤ 1 ∧
    (start_stt_daemon spawn s).1 = .error "STT daemon is already running" ∧
    (start_stt_daemon spawn s).2 = s := by
  obtain ⟨c, hc⟩ := Option.isSome_iff_exists.mp h
  refine ⟨?_, ?_, ?_⟩
  · cases hrun : (run ops).stt_process <;> simp [handleCount, hrun]
  · simp [start_stt_daemon, hc]
  · simp [start_stt_daemon, hc]

/-- C1 witness at a concrete sequence and occupied state. -/
theorem C1_at_most_one_handle_witness :
    handleCount (run [Op.start (.ok 7), Op.status, Op.stop (.ok ())]) ≤ 1 ∧
    (start_stt_daemon (.ok 9) ⟨some 7⟩).1 = .error "STT daemon is already running" ∧
    (start_stt_daemon (.ok 9) ⟨some 7⟩).2 = ⟨some 7⟩ :=
  C1_at_most_one_handle [Op.start (.ok 7), Op.status, Op.stop (.ok ())]
    (.ok 9) ⟨some 7⟩ rfl

/-- C2: while a handle is present, `start_stt_daemon` returns
`Err("STT daemon is already running")` and leaves the state — hence the held
handle — unchanged, for every possible spawn outcome (so no spawn effect is
observable). -/
theorem C2_start_rejected_when_running (spawn : Except String Child)
    (s : AppState) (c : Child) (h : s.stt_process = some c) :
    (start_stt_daemon spawn s).1 = .error "STT daemon is already running" ∧
    (start_stt_daemon spawn s).2.stt_process = some c := by
  simp [start_stt_daemon, h]

/-- C2 witness at a concrete occupied state. -/
theorem C2_start_rejected_when_running_witness :
    (start_stt_daemon (.ok 5) ⟨some 3⟩).1 = .error "STT daemon is already running" ∧
    (start_stt_daemon (.ok 5) ⟨some 3⟩).2.stt_process = some 3 :=
  C2_start_rejected_when_running (.ok 5) ⟨some 3⟩ 3 rfl

/-- C3: while no handle is present, `stop_stt_daemon` returns
`Err("STT daemon is not running")` and leaves the state unchanged, for every
possible kill outcome. -/
theorem C3_stop_rejected_when_stopped (kill : Except String Unit)
    (s : AppState) (h : s.stt_process = none) :
    (stop_stt_daemon kill s).1 = .error "STT daemon is not running" ∧
    (stop_stt_daemon kill s).2 = s := by
  simp [stop_stt_daemon, h]

/-- C3 witness at the initial state. -/
theorem C3_stop_rejected_when_stopped_witness :
    (stop_stt_daemon (.ok ()) initState).1 = .error "STT daemon is not running" ∧
    (stop_stt_daemon (.ok ()) initState).2 = initState :=
  C3_stop_rejected_when_stopped (.ok ()) initState rfl

/-- C4: `get_stt_status` never fails and returns exactly whether the handle
slot is occupied (`Ok(guard.is_some())`), leaving the state unchanged; it
consults nothing but the slot, hence is independent of actual OS liveness. -/
theorem C4_status_reflects_handle (s : AppState) :
    get_stt_status s = (.ok s.stt_process.isSome, s) := rfl

/-- C5: a `stop_stt_daemon` call made while a handle is present clears the
handle for every kill outcome, and in particular when the kill fails with `e`
it returns `Err("Failed to stop STT daemon: e")` while a subsequent
`get_stt_status` still reports `false`. -/
theorem C5_stop_clears_handle_even_on_kill_error (kill : Except String Unit)
    (e : String) (s : AppState) (c : Child) (h : s.stt_process = some c) :
    (stop_stt_daemon kill s).2.stt_process = none ∧
    (stop_stt_daemon (.error e) s).1 = .error ("Failed to stop STT daemon: " ++ e) ∧
    (get_stt_status (stop_stt_daemon (.error e) s).2).1 = .ok false := by
  refine ⟨?_, ?_, ?_⟩
  · cases kill <;> simp [stop_stt_daemon, h]
  · simp [stop_stt_daemon, h]
  · simp [stop_stt_daemon, get_stt_status, h]

/-- C5 witness at a concrete occupied state and failing kill. -/
theorem C5_stop_clears_handle_even_on_kill_error_witness :
    (stop_stt_daemon (.error "ESRCH") ⟨some 4⟩).2.stt_process = none ∧
    (stop_stt_daemon (.error "ESRCH") ⟨some 4⟩).1 =
      .error ("Failed to stop STT daemon: " ++ "ESRCH") ∧
    (get_stt_status (stop_stt_daemon (.error "ESRCH") ⟨some 4⟩).2).1 = .ok false :=
  C5_stop_clears_handle_even_on_kill_error (.error "ESRCH") "ESRCH" ⟨some 4⟩ 4 rfl

/-- C6: while no handle is present, a `start_stt_daemon` whose spawn fails
with OS error `e` returns `Err("Failed to start STT daemon: e")` and leaves
the state unchanged: still no handle. -/
theorem C6_failed_start_leaves_stopped (e : String) (s : AppState)
    (h : s.stt_process = none) :
    (start_stt_daemon (.error e) s).1 =
      .error ("Failed to start STT daemon: " ++ e) ∧
    (start_stt_daemon (.error e) s).2 = s := by
  simp [start_stt_daemon, h]

/-- C6 witness at the initial state with a concrete OS error. -/
theorem C6_failed_start_leaves_stopped_witness :
    (start_stt_daemon (.error "ENOENT") initState).1 =
      .error ("Failed to start STT daemon: " ++ "ENOENT") ∧
    (start_stt_daemon (.error "ENOENT") initState).2 = initState :=
  C6_failed_start_leaves_stopped "ENOENT" initState rfl

/-- C7: from a handle-absent state, a successful start followed by a stop
whose kill succeeds makes the stop return the success message and a
subsequent `get_stt_status` return `false`: the pair round-trips to Stopped. -/
theorem C7_start_stop_roundtrip (s : AppState) (c : Child)
    (h : s.stt_process = none) :
    (stop_stt_daemon (.ok ()) (start_stt_daemon (.ok c) s).2).1 =
      .ok "STT daemon stopped successfully" ∧
    (get_stt_status (stop_stt_daemon (.ok ()) (start_stt_daemon (.ok c) s).2).2).1 =
      .ok false := by
  simp [start_stt_daemon, stop_stt_daemon, get_stt_status, h]

/-- C7 witness at the initial state. -/
theorem C7_start_stop_roundtrip_witness :
    (stop_stt_daemon (.ok ()) (start_stt_daemon (.ok 11) initState).2).1 =
      .ok "STT daemon stopped successfully" ∧
    (get_stt_status (stop_stt_daemon (.ok ()) (start_stt_daemon (.ok 11) initState).2).2).1 =
      .ok false :=
  C7_start_stop_roundtrip initState 11 rfl

/-- C8: from a handle-absent state, a `start_stt_daemon` whose spawn succeeds
with child `c` stores exactly that handle, returns the success message, and a
subsequent `get_stt_status` returns `true`. -/
theorem C8_successful_start_stores_handle (s : AppState) (c : Child)
    (h : s.stt_process = none) :
    (start_stt_daemon (.ok c) s).1 = .ok "STT daemon started successfully" ∧
    (start_stt_daemon (.ok c) s).2.stt_process = some c ∧
    (get_stt_status (start_stt_daemon (.ok c) s).2).1 = .ok true := by
  simp [start_stt_daemon, get_stt_status, h]

/-- C8 witness at the initial state. -/
theorem C8_successful_start_stores_handle_witness :
    (start_stt_daemon (.ok 2) initState).1 = .ok "STT daemon started successfully" ∧
    (start_stt_daemon (.ok 2) initState).2.stt_process = some 2 ∧
    (get_stt_status (start_stt_daemon (.ok 2) initState).2).1 = .ok true :=
  C8_successful_start_stores_handle initState 2 rfl

/-- C9: for a pair of simultaneous `start_stt_daemon` invocations from a
handle-absent state whose spawns would succeed, under either serialisation
order the mutex admits (the lock is held for the whole command body), exactly
one caller succeeds and the other fails with the already-running error. -/
theorem C9_concurrent_starts_mutual_exclusion (ord : Interleaving)
    (c1 c2 : Child) (s : AppState) (h : s.stt_process = none) :
    ((concurrentStarts ord (.ok c1) (.ok c2) s).1 =
        .ok "STT daemon started successfully" ∧
      (concurrentStarts ord (.ok c1) (.ok c2) s).2.1 =
        .error "STT daemon is already running") ∨
    ((concurrentStarts ord (.ok c1) (.ok c2) s).1 =
        .error "STT daemon is already running" ∧
      (concurrentStarts ord (.ok c1) (.ok c2) s).2.1 =
        .ok "STT daemon started successfully") := by
  cases ord
  · exact Or.inl (by simp [concurrentStarts, start_stt_daemon, h])
  · exact Or.inr (by simp [concurrentStarts, start_stt_daemon, h])

/-- C9 witness at the initial state for one serialisation order. -/
theorem C9_concurrent_starts_mutual_exclusion_witness :
    ((concurrentStarts .firstThenSecond (.ok 6) (.ok 8) initState).1 =
        .ok "STT daemon started successfully" ∧
      (concurrentStarts .firstThenSecond (.ok 6) (.ok 8) initState).2.1 =
        .error "STT daemon is already running") ∨
    ((concurrentStarts .firstThenSecond (.ok 6) (.ok 8) initState).1 =
        .error "STT daemon is already running" ∧
      (concurrentStarts .firstThenSecond (.ok 6) (.ok 8) initState).2.1 =
        .ok "STT daemon started successfully") :=
  C9_concurrent_starts_mutual_exclusion .firstThenSecond 6 8 initState rfl

/-- C10: the quit handler discards any kill error: for every state and every
kill outcome it clears the handle slot and exits with status code 0. -/
theorem C10_quit_discards_kill_error (kill : Except String Unit) (s : AppState) :
    (quit_handler kill s).1.stt_process = none ∧
    (quit_handler kill s).2 = 0 := by
  cases hs : s.stt_process <;> simp [quit_handler, hs]
